import Mathlib

/-!
Shallow embedding of the identifier-resolution core of `database_utils`
(`core/identifier.py`, `core/repositories/security.py`, `core/schema.py`,
`core/connection.py`, `exceptions.py`).

Dates are modelled as `Int` (SQLite stores DATE as ISO strings whose
lexicographic order is chronological, so any linearly ordered carrier is
faithful); SQL `NULL` is `Option.none`.  Tables are lists of rows in rowid
(insertion) order.  Operations that write thread an explicit `DBState`;
a Python exception is an `Except.error` carrying the exception value and
the database state as committed at the moment the exception propagates.
-/

namespace DBU

/-- The closed enumeration `IdentifierType` from `types.py`. -/
inductive IdentifierType : Type
| ISIN
| CUSIP
| SEDOL
| TICKER_BBG
| TICKER_YAHOO
| JP_CODE
| FIGI
deriving DecidableEq, Repr, Fintype

/-- The string code of an identifier type, as the Python string literals. -/
def IdentifierType.code : IdentifierType → String
| .ISIN => "ISIN"
| .CUSIP => "CUSIP"
| .SEDOL => "SEDOL"
| .TICKER_BBG => "TICKER_BBG"
| .TICKER_YAHOO => "TICKER_YAHOO"
| .JP_CODE => "JP_CODE"
| .FIGI => "FIGI"

/-- Character class `[A-Z]` of the regexes in `IDENTIFIER_PATTERNS`. -/
def isUpperAZ (c : Char) : Bool := 'A' ≤ c && c ≤ 'Z'

/-- Character class `[0-9]` of the regexes in `IDENTIFIER_PATTERNS`. -/
def isDigit09 (c : Char) : Bool := '0' ≤ c && c ≤ '9'

/-- Character class `[A-Z0-9]` of the regexes in `IDENTIFIER_PATTERNS`. -/
def isUpperAlnum (c : Char) : Bool := isUpperAZ c || isDigit09 c

/-- Regex `^BBG[A-Z0-9]{9}$` (FIGI) from `IDENTIFIER_PATTERNS`. -/
def matchFIGI (s : String) : Bool :=
  match s.toList with
  | 'B' :: 'B' :: 'G' :: rest => rest.length = 9 && rest.all isUpperAlnum
  | _ => false

/-- Regex `^[A-Z]{2}[A-Z0-9]{9}[0-9]$` (ISIN) from `IDENTIFIER_PATTERNS`. -/
def matchISIN (s : String) : Bool :=
  match s.toList with
  | c1 :: c2 :: rest =>
      isUpperAZ c1 && isUpperAZ c2 && rest.length = 10 &&
        rest.dropLast.all isUpperAlnum &&
        (match rest.getLast? with
         | some c => isDigit09 c
         | none => false)
  | _ => false

/-- Regex `^[A-Z0-9]{9}$` (CUSIP) from `IDENTIFIER_PATTERNS`. -/
def matchCUSIP (s : String) : Bool :=
  s.toList.length = 9 && s.toList.all isUpperAlnum

/-- Regex `^[A-Z0-9]{7}$` (SEDOL) from `IDENTIFIER_PATTERNS`. -/
def matchSEDOL (s : String) : Bool :=
  s.toList.length = 7 && s.toList.all isUpperAlnum

/-- Regex `^[0-9]{4}$` (JP_CODE) from `IDENTIFIER_PATTERNS`. -/
def matchJPCODE (s : String) : Bool :=
  s.toList.length = 4 && s.toList.all isDigit09

/-- The `IDENTIFIER_PATTERNS` dict of `identifier.py`: five structural
patterns; ticker types have no entry (`dict.get` yields `None`). -/
def IDENTIFIER_PATTERNS : IdentifierType → Option (String → Bool)
| .FIGI => some matchFIGI
| .ISIN => some matchISIN
| .CUSIP => some matchCUSIP
| .SEDOL => some matchSEDOL
| .JP_CODE => some matchJPCODE
| .TICKER_BBG => none
| .TICKER_YAHOO => none

/-- `DETECTION_ORDER` from `identifier.py`. -/
def DETECTION_ORDER : List IdentifierType :=
  [.FIGI, .ISIN, .CUSIP, .SEDOL, .JP_CODE]

/-- `TICKER_TYPES` from `identifier.py`. -/
def TICKER_TYPES : List IdentifierType := [.TICKER_YAHOO, .TICKER_BBG]

/-- The loop body of `detect_identifier_type`: walk the detection order,
look the type up in `IDENTIFIER_PATTERNS`, return the first type whose
pattern matches. -/
def detectLoop : List IdentifierType → String → Option IdentifierType
| [], _ => none
| t :: rest, v =>
    match IDENTIFIER_PATTERNS t with
    | some p => if p v then some t else detectLoop rest v
    | none => detectLoop rest v

/-- `IdentifierResolver.detect_identifier_type`: empty string yields `none`
(Python falsiness guard), otherwise first match in `DETECTION_ORDER`. -/
def detect_identifier_type (v : String) : Option IdentifierType :=
  if v = "" then none
  else detectLoop DETECTION_ORDER v

/-- The structural pattern of a type as a total Boolean test: `false` for
the ticker types, which have no pattern. -/
def patternMatches (t : IdentifierType) (v : String) : Bool :=
  match IDENTIFIER_PATTERNS t with
  | some p => p v
  | none => false

/-- A row of the `securities` table (`SECURITIES_TABLE` in `schema.py`);
timestamp columns are not modelled. -/
structure SecurityRow : Type where
  security_id : Nat
  name : String
  description : Option String
  asset_class : Option String
  currency : Option String
deriving DecidableEq, Repr

/-- A row of the `security_identifiers` table
(`SECURITY_IDENTIFIERS_TABLE` in `schema.py`). -/
structure IdentifierRow : Type where
  id : Nat
  security_id : Nat
  identifier_type : IdentifierType
  identifier_value : String
  valid_from : Option Int
  valid_to : Option Int
  is_primary : Bool
deriving DecidableEq, Repr

/-- A row of the `data_sources` table (`DATA_SOURCES_TABLE`). -/
structure SourceRow : Type where
  source_id : Nat
  source_code : String
  priority : Int
  is_active : Bool
deriving DecidableEq, Repr

/-- A row of the `price_data` table (`PRICE_DATA_TABLE`); REAL columns are
carried as integers because no claim computes with their values. -/
structure PriceRow : Type where
  id : Nat
  security_id : Nat
  source_id : Nat
  price_date : Int
  openv : Option Int
  high : Option Int
  low : Option Int
  close : Int
  volume : Option Int
  adjusted_close : Option Int
deriving DecidableEq, Repr

/-- A row of the `factor_data` table (`FACTOR_DATA_TABLE`). -/
structure FactorRow : Type where
  id : Nat
  security_id : Nat
  factor_id : Nat
  source_id : Nat
  as_of_date : Int
  value_numeric : Option Int
  value_text : Option String
deriving DecidableEq, Repr

/-- The committed contents of the store, tables in rowid order, plus the
AUTOINCREMENT counters. -/
structure DBState : Type where
  securities : List SecurityRow
  security_identifiers : List IdentifierRow
  data_sources : List SourceRow
  price_data : List PriceRow
  factor_data : List FactorRow
  next_security_id : Nat
  next_identifier_id : Nat
deriving DecidableEq, Repr

/-- The exceptions that can cross the resolver / repository boundary:
`DatabaseError` and `TransactionError` from `connection.py`, the
domain exceptions from `exceptions.py`, and Python's built-in
`ValueError` raised by `resolve_or_create`. -/
inductive Err : Type
| databaseError (msg : String)
| transactionError (msg : String)
| identifierNotFoundError (identifier_type identifier_value : String)
| duplicateSecurityError (identifier_type identifier_value : String)
| validationError (field reason : String)
| valueError (msg : String)
deriving DecidableEq, Repr

deriving instance DecidableEq for Except

/-- Whether an exception is an instance of the `ValidationError` class of
`exceptions.py`. -/
def Err.isValidationError : Err → Bool
| .validationError _ _ => true
| _ => false

/-- Whether an exception is an instance of `TransactionError`
(`connection.py`), the transaction-failure wrapper. -/
def Err.isTransactionError : Err → Bool
| .transactionError _ => true
| _ => false

/-- SQL predicate
`(valid_from IS NULL OR valid_from <= ?) AND (valid_to IS NULL OR valid_to > ?)`
of the `resolve` query: the half-open validity interval contains `asOf`,
NULL bounds unbounded. -/
def containsAsOf (r : IdentifierRow) (asOf : Int) : Bool :=
  (match r.valid_from with
   | none => true
   | some f => f ≤ asOf) &&
  (match r.valid_to with
   | none => true
   | some t => asOf < t)

/-- The key order of `ORDER BY valid_from DESC NULLS LAST`: `vfLT a b`
holds when `b` is strictly preferred to `a` (a later non-NULL
`valid_from`; NULL sorts after every non-NULL value). -/
def vfLT : Option Int → Option Int → Bool
| none, none => false
| none, some _ => true
| some _, none => false
| some a, some b => a < b

/-- `ORDER BY ... LIMIT 1` over a scan: the first element that no later
element strictly beats under the strict preference `better` (ties keep
the earlier element, i.e. insertion order). -/
def scanBest (better : α → α → Bool) : List α → Option α
| [] => none
| x :: rest =>
    match scanBest better rest with
    | none => some x
    | some b => if better b x then some b else some x

/-- `ORDER BY valid_from DESC NULLS LAST LIMIT 1` over a candidate list:
the first row carrying the greatest key in the `vfLT` preference order. -/
def selectBest : List IdentifierRow → Option IdentifierRow :=
  scanBest fun b r => vfLT r.valid_from b.valid_from

/-- The WHERE clause of the `resolve` query as a row filter. -/
def resolveMatches (t : IdentifierType) (v : String) (asOf : Int)
    (r : IdentifierRow) : Bool :=
  r.identifier_type = t && r.identifier_value = v && containsAsOf r asOf

/-- The candidate rows of the `resolve` query, in rowid order. -/
def resolveCandidates (st : DBState) (t : IdentifierType) (v : String)
    (asOf : Int) : List IdentifierRow :=
  st.security_identifiers.filter (resolveMatches t v asOf)

/-- `IdentifierResolver.resolve` as executed against the store: the
`fetchone` of the temporal lookup query, paired with the table state the
call leaves behind (a SELECT writes nothing). -/
def resolve_call (st : DBState) (v : String) (t : IdentifierType)
    (asOf : Int) : Option Nat × DBState :=
  match selectBest (resolveCandidates st t v asOf) with
  | none => (none, st)
  | some row => (some row.security_id, st)

/-- The value returned by `IdentifierResolver.resolve`. -/
def resolve (st : DBState) (v : String) (t : IdentifierType)
    (asOf : Int) : Option Nat :=
  (resolve_call st v t asOf).1

/-- The ticker-fallback loop of `resolve_auto`: try `resolve` with
`TICKER_YAHOO`, then `TICKER_BBG`, returning the first hit. -/
def tickerFallback (st : DBState) (v : String) (asOf : Int) :
    Option Nat × DBState :=
  match resolve_call st v .TICKER_YAHOO asOf with
  | (some sid, st1) => (some sid, st1)
  | (none, st1) => resolve_call st1 v .TICKER_BBG asOf

/-- `IdentifierResolver.resolve_auto`: detect the type; on a detection hit
try `resolve` with it; on detection miss or resolution miss fall through
to the ticker types. -/
def resolve_auto_call (st : DBState) (v : String) (asOf : Int) :
    Option Nat × DBState :=
  match detect_identifier_type v with
  | some t =>
      match resolve_call st v t asOf with
      | (some sid, st1) => (some sid, st1)
      | (none, st1) => tickerFallback st1 v asOf
  | none => tickerFallback st v asOf

/-- The value returned by `IdentifierResolver.resolve_auto`. -/
def resolve_auto (st : DBState) (v : String) (asOf : Int) : Option Nat :=
  (resolve_auto_call st v asOf).1

/-- `IdentifierResolver.resolve_or_raise`: `resolve`, but a miss raises
`IdentifierNotFoundError(str(identifier_type), identifier_value)`. -/
def resolve_or_raise_call (st : DBState) (v : String) (t : IdentifierType)
    (asOf : Int) : Except Err Nat × DBState :=
  match resolve_call st v t asOf with
  | (some sid, st1) => (.ok sid, st1)
  | (none, st1) => (.error (.identifierNotFoundError t.code v), st1)

/-- `SecurityRepository.create`: INSERT one row into `securities` and
commit; returns `cursor.lastrowid`.  The insert has no failing
constraint in the model (only NOT NULL on `name`, and `name` is a
string). -/
def SecurityRepository.create (st : DBState) (name : String)
    (description asset_class currency : Option String) : Nat × DBState :=
  let sid := st.next_security_id
  (sid,
   { st with
     securities := st.securities ++
       [{ security_id := sid, name := name, description := description,
          asset_class := asset_class, currency := currency }],
     next_security_id := sid + 1 })

/-- SQL `=` between a column and a parameter that may both be NULL:
NULL compares equal to nothing (three-valued logic collapses to false
in a WHERE context). -/
def sqlEqOpt (a b : Option Int) : Bool :=
  match a, b with
  | some x, some y => x = y
  | _, _ => false

/-- The WHERE clause of the duplicate check in
`SecurityRepository.add_identifier`:
`identifier_type = ? AND identifier_value = ? AND (valid_from IS NULL OR valid_from = ?)`. -/
def dupCheckMatches (t : IdentifierType) (v : String)
    (valid_from : Option Int) (r : IdentifierRow) : Bool :=
  r.identifier_type = t && r.identifier_value = v &&
    (r.valid_from.isNone || sqlEqOpt r.valid_from valid_from)

/-- The UNIQUE constraint on
`(identifier_type, identifier_value, valid_from)` of
`security_identifiers`: a new row conflicts with an existing one exactly
when all three are equal and `valid_from` is non-NULL (SQLite treats
NULLs in a UNIQUE index as distinct). -/
def uniqueConflict (st : DBState) (t : IdentifierType) (v : String)
    (valid_from : Option Int) : Bool :=
  st.security_identifiers.any fun r =>
    r.identifier_type = t && r.identifier_value = v &&
      sqlEqOpt r.valid_from valid_from

/-- `SecurityRepository.add_identifier`: fetchone the duplicate check; a
hit owned by a different security raises
`DuplicateSecurityError(str(identifier_type), identifier_value)` before
any write; otherwise INSERT the association row (the storage UNIQUE
constraint rejecting a true triple duplicate as a `DatabaseError`,
leaving the table unchanged) and commit. -/
def SecurityRepository.add_identifier (st : DBState) (security_id : Nat)
    (t : IdentifierType) (v : String) (is_primary : Bool)
    (valid_from valid_to : Option Int) : Except (Err × DBState) DBState :=
  match (st.security_identifiers.filter (dupCheckMatches t v valid_from)).head? with
  | some existing =>
      if existing.security_id ≠ security_id then
        .error (.duplicateSecurityError t.code v, st)
      else if uniqueConflict st t v valid_from then
        .error (.databaseError "SQL execution failed: UNIQUE constraint failed", st)
      else
        .ok { st with
              security_identifiers := st.security_identifiers ++
                [{ id := st.next_identifier_id, security_id := security_id,
                   identifier_type := t, identifier_value := v,
                   valid_from := valid_from, valid_to := valid_to,
                   is_primary := is_primary }],
              next_identifier_id := st.next_identifier_id + 1 }
  | none =>
      if uniqueConflict st t v valid_from then
        .error (.databaseError "SQL execution failed: UNIQUE constraint failed", st)
      else
        .ok { st with
              security_identifiers := st.security_identifiers ++
                [{ id := st.next_identifier_id, security_id := security_id,
                   identifier_type := t, identifier_value := v,
                   valid_from := valid_from, valid_to := valid_to,
                   is_primary := is_primary }],
              next_identifier_id := st.next_identifier_id + 1 }

/-- `IdentifierResolver.resolve_or_create`: `resolve` first (at `today`,
the default `as_of`); a hit is returned unchanged.  On a miss an empty
`security_name` raises built-in
`ValueError(f"security_name is required when creating new security for
{identifier_type}={identifier_value}")`; otherwise
`SecurityRepository.create` commits the security, then
`SecurityRepository.add_identifier` commits the association — two
separate commits, no `transaction()` wrapper, so an exception from the
second step propagates with the security row already durable. -/
def resolve_or_create (st : DBState) (v : String) (t : IdentifierType)
    (security_name : String) (description asset_class currency : Option String)
    (today : Int) : Except (Err × DBState) (Nat × DBState) :=
  match resolve_call st v t today with
  | (some sid, st1) => .ok (sid, st1)
  | (none, st1) =>
      if security_name = "" then
        .error (.valueError
          ("security_name is required when creating new security for " ++
            t.code ++ "=" ++ v), st1)
      else
        let created := SecurityRepository.create st1 security_name
          description asset_class currency
        match SecurityRepository.add_identifier created.2 created.1 t v
            false none none with
        | .error e => .error e
        | .ok st3 => .ok (created.1, st3)

/-- `JOIN data_sources ds ON p.source_id = ds.source_id`: the source row
referenced by a fact row (`source_id` is UNIQUE, so the first match is
the match). -/
def sourceFor (st : DBState) (sid : Nat) : Option SourceRow :=
  st.data_sources.find? fun ds => ds.source_id = sid

/-- The joined rows `price_data JOIN data_sources` restricted to
`is_active = 1`, in rowid order. -/
def activePriceRows (st : DBState) : List (PriceRow × SourceRow) :=
  st.price_data.filterMap fun p =>
    match sourceFor st p.source_id with
    | some ds => if ds.is_active then some (p, ds) else none
    | none => none

/-- `ORDER BY ds2.priority ASC LIMIT 1` of the correlated subquery in
`BEST_PRICES_VIEW`: the first row carrying the minimal priority. -/
def selectMinPriority :
    List (PriceRow × SourceRow) → Option (PriceRow × SourceRow) :=
  scanBest fun b x => b.2.priority < x.2.priority

/-- The correlated subquery of `BEST_PRICES_VIEW`: the id of the active
row with minimal source priority for one `(security_id, price_date)`. -/
def bestPriceId (st : DBState) (sec : Nat) (d : Int) : Option Nat :=
  (selectMinPriority ((activePriceRows st).filter fun x =>
    x.1.security_id = sec && x.1.price_date = d)).map fun x => x.1.id

/-- The underlying `(price_data, data_sources)` row pairs satisfying the
WHERE clause of `BEST_PRICES_VIEW`: active source and
`p.id = (SELECT ... LIMIT 1)`. -/
def best_prices_rows (st : DBState) : List (PriceRow × SourceRow) :=
  (activePriceRows st).filter fun x =>
    bestPriceId st x.1.security_id x.1.price_date = some x.1.id

/-- A projected row of the `best_prices` view. -/
structure BestPriceRow : Type where
  security_id : Nat
  price_date : Int
  openv : Option Int
  high : Option Int
  low : Option Int
  close : Int
  volume : Option Int
  adjusted_close : Option Int
  source_code : String
  source_priority : Int
deriving DecidableEq, Repr

/-- The SELECT list of `BEST_PRICES_VIEW`. -/
def best_prices (st : DBState) : List BestPriceRow :=
  (best_prices_rows st).map fun x =>
    { security_id := x.1.security_id, price_date := x.1.price_date,
      openv := x.1.openv, high := x.1.high, low := x.1.low,
      close := x.1.close, volume := x.1.volume,
      adjusted_close := x.1.adjusted_close,
      source_code := x.2.source_code, source_priority := x.2.priority }

/-- Reading the `best_prices` view through the connection (a `fetchall`
over the view), paired with the table state the read leaves behind. -/
def best_prices_call (st : DBState) : List BestPriceRow × DBState :=
  match best_prices st with
  | rows => (rows, st)

/-- Modelled from the spec: deactivating a data source — an administrator
setting `is_active = 0` on one `data_sources` row (§3 marks `is_active`
as mutated only by administrators; no function under `src/` performs
this write). -/
def deactivateSource (st : DBState) (sid : Nat) : DBState :=
  { st with
    data_sources := st.data_sources.map fun ds =>
      if ds.source_id = sid then { ds with is_active := false } else ds }

/-! ## Lemmas about the selection primitives -/

theorem scanBest_cons {α : Type} (better : α → α → Bool) (x : α)
    (rest : List α) :
    scanBest better (x :: rest) =
      match scanBest better rest with
      | none => some x
      | some b => if better b x then some b else some x := rfl

theorem scanBest_mem {α : Type} {better : α → α → Bool} :
    ∀ {l : List α} {r : α}, scanBest better l = some r → r ∈ l
| [], r => by simp [scanBest]
| x :: rest, r => by
    intro h
    rw [scanBest_cons] at h
    split at h
    · cases h
      exact List.mem_cons_self x rest
    · split at h
      · cases h
        next heq _ =>
        exact List.mem_cons_of_mem _ (scanBest_mem heq)
      · cases h
        exact List.mem_cons_self x rest

theorem scanBest_eq_none {α : Type} {better : α → α → Bool} :
    ∀ {l : List α}, scanBest better l = none ↔ l = []
| [] => by simp [scanBest]
| x :: rest => by
    rw [scanBest_cons]
    constructor
    · intro h
      split at h
      · cases h
      · split at h <;> cases h
    · intro h
      cases h

theorem scanBest_not_beaten {α : Type} {better : α → α → Bool}
    (hirr : ∀ a, better a a = false)
    (hasym : ∀ a b, better a b = true → better b a = false)
    (hneg : ∀ a b c, better a b = false → better b c = false →
      better a c = false) :
    ∀ {l : List α} {r : α}, scanBest better l = some r →
      ∀ x ∈ l, better x r = false
| [], r => by simp [scanBest]
| x :: rest, r => by
    intro h y hy
    rw [scanBest_cons] at h
    split at h
    · next hnone =>
      cases h
      rcases List.mem_cons.mp hy with hyx | hyr
      · subst hyx
        exact hirr y
      · rw [scanBest_eq_none.mp hnone] at hyr
        cases hyr
    · next b hsome =>
      split at h
      · next hb =>
        cases h
        rcases List.mem_cons.mp hy with hyx | hyr
        · subst hyx
          exact hasym _ _ hb
        · exact scanBest_not_beaten hirr hasym hneg hsome y hyr
      · next hb =>
        cases h
        rcases List.mem_cons.mp hy with hyx | hyr
        · subst hyx
          exact hirr y
        · have h1 : better y b = false :=
            scanBest_not_beaten hirr hasym hneg hsome y hyr
          exact hneg y b x h1 (by simpa using hb)

theorem vfLT_irrefl (a : Option Int) : vfLT a a = false := by
  cases a <;> simp [vfLT]

theorem vfLT_asymm {a b : Option Int} (h : vfLT a b = true) :
    vfLT b a = false := by
  cases a <;> cases b <;> simp [vfLT] at *
  omega

theorem vfLT_neg_trans {a b c : Option Int} (h1 : vfLT a b = false)
    (h2 : vfLT b c = false) : vfLT a c = false := by
  cases a <;> cases b <;> cases c <;> simp [vfLT] at *
  all_goals omega

theorem selectBest_mem {l : List IdentifierRow} {r : IdentifierRow}
    (h : selectBest l = some r) : r ∈ l :=
  scanBest_mem h

theorem selectBest_maximal {l : List IdentifierRow} {r : IdentifierRow}
    (h : selectBest l = some r) :
    ∀ x ∈ l, vfLT r.valid_from x.valid_from = false :=
  @scanBest_not_beaten IdentifierRow
    (fun b r => vfLT r.valid_from b.valid_from)
    (fun a => vfLT_irrefl a.valid_from)
    (fun _ _ hab => vfLT_asymm hab)
    (fun _ _ _ h1 h2 => vfLT_neg_trans h2 h1) l r h

theorem selectBest_eq_none {l : List IdentifierRow} :
    selectBest l = none ↔ l = [] :=
  scanBest_eq_none

theorem selectMinPriority_mem {l : List (PriceRow × SourceRow)}
    {r : PriceRow × SourceRow} (h : selectMinPriority l = some r) : r ∈ l :=
  scanBest_mem h

theorem selectMinPriority_minimal {l : List (PriceRow × SourceRow)}
    {r : PriceRow × SourceRow} (h : selectMinPriority l = some r) :
    ∀ x ∈ l, (decide (x.2.priority < r.2.priority)) = false :=
  @scanBest_not_beaten (PriceRow × SourceRow)
    (fun b x => decide (b.2.priority < x.2.priority))
    (fun a => by simp)
    (fun a b hab => by simp at *; omega)
    (fun a b c h1 h2 => by simp at *; omega) l r h

theorem selectMinPriority_eq_none {l : List (PriceRow × SourceRow)} :
    selectMinPriority l = none ↔ l = [] :=
  scanBest_eq_none

/-! ## Lemmas about the read operations -/

theorem resolve_call_snd (st : DBState) (v : String) (t : IdentifierType)
    (asOf : Int) : (resolve_call st v t asOf).2 = st := by
  unfold resolve_call
  split <;> rfl

theorem resolve_call_eq (st : DBState) (v : String) (t : IdentifierType)
    (asOf : Int) : resolve_call st v t asOf = (resolve st v t asOf, st) := by
  have h2 := resolve_call_snd st v t asOf
  cases hrc : resolve_call st v t asOf with
  | mk a b =>
      rw [hrc] at h2
      cases h2
      unfold resolve
      rw [hrc]

theorem resolve_eq_selectBest (st : DBState) (v : String)
    (t : IdentifierType) (asOf : Int) :
    resolve st v t asOf =
      (selectBest (resolveCandidates st t v asOf)).map
        (fun r => r.security_id) := by
  unfold resolve resolve_call
  cases h : selectBest (resolveCandidates st t v asOf) <;> simp [h]

theorem detectLoop_eq_findFirst (v : String) :
    ∀ l : List IdentifierType,
      detectLoop l v = l.find? (fun t => patternMatches t v)
| [] => rfl
| t :: rest => by
    rw [detectLoop, List.find?]
    cases hp : IDENTIFIER_PATTERNS t with
    | none =>
        have hpm : patternMatches t v = false := by
          simp [patternMatches, hp]
        simp [hpm, detectLoop_eq_findFirst v rest]
    | some p =>
        have hpm : patternMatches t v = p v := by
          simp [patternMatches, hp]
        cases hpv : p v with
        | true => simp [hpm, hpv]
        | false => simp [hpm, hpv, detectLoop_eq_findFirst v rest]

theorem detect_mem_DETECTION_ORDER {v : String} {t : IdentifierType}
    (h : detect_identifier_type v = some t) : t ∈ DETECTION_ORDER := by
  by_cases hv : v = ""
  · subst hv
    simp [detect_identifier_type] at h
  · rw [detect_identifier_type, if_neg hv, detectLoop_eq_findFirst] at h
    exact List.mem_of_find?_eq_some h

/-! ## Fixture states used by the witnesses and counterexamples -/

/-- A freshly initialized store with no securities. -/
def stEmpty : DBState :=
  { securities := [], security_identifiers := [], data_sources := [],
    price_data := [], factor_data := [],
    next_security_id := 1, next_identifier_id := 1 }

/-- The temporal scenario of §8: one security holding an expired ticker
(interval `[0, 1460)`) and its reissued successor (interval
`[1461, ∞)`). -/
def stTemporal : DBState :=
  { securities := [⟨1, "T Corp", none, none, none⟩],
    security_identifiers :=
      [⟨1, 1, .TICKER_YAHOO, "OLD.T", some 0, some 1460, false⟩,
       ⟨2, 1, .TICKER_YAHOO, "NEW.T", some 1461, none, false⟩],
    data_sources := [], price_data := [], factor_data := [],
    next_security_id := 2, next_identifier_id := 3 }

/-! ## Claim theorems -/

/-- C2: `resolve` returns the security id of an association for
`(type, value)` whose half-open validity interval contains `as_of`
(NULL bounds unbounded); among candidates it picks one with the latest
non-null `valid_from`, NULL `valid_from` sorting last; and it returns
none exactly when no row for `(type, value)` has an interval containing
`as_of`. -/
theorem C2_resolve_point_in_time (st : DBState) (v : String)
    (t : IdentifierType) (asOf : Int) :
    (∀ sid, resolve st v t asOf = some sid →
      ∃ r, r ∈ st.security_identifiers ∧ r.identifier_type = t ∧
        r.identifier_value = v ∧ containsAsOf r asOf = true ∧
        r.security_id = sid ∧
        ∀ rr, rr ∈ st.security_identifiers → rr.identifier_type = t →
          rr.identifier_value = v → containsAsOf rr asOf = true →
          vfLT r.valid_from rr.valid_from = false) ∧
    (resolve st v t asOf = none ↔
      ∀ r, r ∈ st.security_identifiers → r.identifier_type = t →
        r.identifier_value = v → containsAsOf r asOf = false) := by
  constructor
  · intro sid h
    rw [resolve_eq_selectBest] at h
    cases hsb : selectBest (resolveCandidates st t v asOf) with
    | none =>
        rw [hsb] at h
        simp at h
    | some r =>
        rw [hsb] at h
        simp only [Option.map_some'] at h
        have hrmem := selectBest_mem hsb
        have hmax := selectBest_maximal hsb
        obtain ⟨hmem, hmatch⟩ := List.mem_filter.mp hrmem
        simp only [resolveMatches, Bool.and_eq_true, decide_eq_true_eq]
          at hmatch
        refine ⟨r, hmem, hmatch.1.1, hmatch.1.2, hmatch.2,
          by injection h, ?_⟩
        intro rr hrr htt hvv hcc
        exact hmax rr (List.mem_filter.mpr
          ⟨hrr, by simp [resolveMatches, htt, hvv, hcc]⟩)
  · rw [resolve_eq_selectBest]
    constructor
    · intro h r hr ht hv
      by_contra hc
      have hc' : containsAsOf r asOf = true := by
        simpa using hc
      have hmem : r ∈ resolveCandidates st t v asOf :=
        List.mem_filter.mpr ⟨hr, by simp [resolveMatches, ht, hv, hc']⟩
      cases hsb : selectBest (resolveCandidates st t v asOf) with
      | none =>
          rw [selectBest_eq_none.mp hsb] at hmem
          cases hmem
      | some b =>
          rw [hsb] at h
          simp at h
    · intro h
      have hnil : resolveCandidates st t v asOf = [] := by
        rw [resolveCandidates, List.filter_eq_nil_iff]
        intro a ha
        simp only [resolveMatches, Bool.and_eq_true, decide_eq_true_eq,
          not_and]
        intro hta hva
        simp [h a ha hta.1 hta.2] at hva
      rw [hnil]
      simp [selectBest, scanBest]

theorem tickerFallback_eq (st : DBState) (v : String) (asOf : Int) :
    tickerFallback st v asOf =
      ((match resolve st v .TICKER_YAHOO asOf with
        | some sid => some sid
        | none => resolve st v .TICKER_BBG asOf), st) := by
  unfold tickerFallback
  rw [resolve_call_eq]
  cases h : resolve st v .TICKER_YAHOO asOf with
  | some sid => rfl
  | none => simp [resolve_call_eq]

theorem resolve_none_iff (st : DBState) (v : String) (t : IdentifierType)
    (asOf : Int) :
    resolve st v t asOf = none ↔ resolveCandidates st t v asOf = [] := by
  rw [resolve_eq_selectBest]
  cases h : selectBest (resolveCandidates st t v asOf) with
  | none => simp [selectBest_eq_none.mp h]
  | some b =>
      simp only [Option.map_some']
      constructor
      · intro hc
        cases hc
      · intro hnil
        rw [hnil] at h
        simp [selectBest, scanBest] at h

theorem add_identifier_ok_shape {st : DBState} {sid : Nat}
    {t : IdentifierType} {v : String} {ip : Bool} {vf vt : Option Int}
    {st2 : DBState}
    (h : SecurityRepository.add_identifier st sid t v ip vf vt = .ok st2) :
    st2.security_identifiers = st.security_identifiers ++
      [⟨st.next_identifier_id, sid, t, v, vf, vt, ip⟩] ∧
    st2.securities = st.securities ∧
    st2.data_sources = st.data_sources ∧
    st2.price_data = st.price_data ∧
    st2.factor_data = st.factor_data ∧
    st2.next_security_id = st.next_security_id ∧
    st2.next_identifier_id = st.next_identifier_id + 1 := by
  unfold SecurityRepository.add_identifier at h
  split at h
  · split at h
    · cases h
    · split at h
      · cases h
      · cases h
        exact ⟨rfl, rfl, rfl, rfl, rfl, rfl, rfl⟩
  · split at h
    · cases h
    · cases h
      exact ⟨rfl, rfl, rfl, rfl, rfl, rfl, rfl⟩

theorem add_identifier_error_shape {st : DBState} {sid : Nat}
    {t : IdentifierType} {v : String} {ip : Bool} {vf vt : Option Int}
    {e : Err} {st2 : DBState}
    (h : SecurityRepository.add_identifier st sid t v ip vf vt =
      .error (e, st2)) :
    st2 = st ∧ e.isTransactionError = false ∧
    (e = .duplicateSecurityError t.code v ∨ ∃ m, e = .databaseError m) := by
  unfold SecurityRepository.add_identifier at h
  split at h
  · split at h
    · cases h
      exact ⟨rfl, rfl, Or.inl rfl⟩
    · split at h
      · cases h
        exact ⟨rfl, rfl, Or.inr ⟨_, rfl⟩⟩
      · cases h
  · split at h
    · cases h
      exact ⟨rfl, rfl, Or.inr ⟨_, rfl⟩⟩
    · cases h

theorem resolve_or_create_hit {st : DBState} {v : String}
    {t : IdentifierType} {today : Int} {sid : Nat}
    (hs : resolve st v t today = some sid)
    (n : String) (d a c : Option String) :
    resolve_or_create st v t n d a c today = .ok (sid, st) := by
  unfold resolve_or_create
  rw [resolve_call_eq, hs]

theorem resolve_or_create_creates {st : DBState} {v : String}
    {t : IdentifierType} {n : String} {d a c : Option String} {today : Int}
    {sid : Nat} {st2 : DBState}
    (hmiss : resolve st v t today = none)
    (h : resolve_or_create st v t n d a c today = .ok (sid, st2)) :
    sid = st.next_security_id ∧
    st2.securities = st.securities ++
      [⟨st.next_security_id, n, d, a, c⟩] ∧
    st2.security_identifiers = st.security_identifiers ++
      [⟨st.next_identifier_id, st.next_security_id, t, v, none, none,
        false⟩] := by
  unfold resolve_or_create at h
  rw [resolve_call_eq, hmiss] at h
  simp only [SecurityRepository.create] at h
  split at h
  · cases h
  · split at h
    · cases h
    · next st3 hadd =>
      obtain ⟨hids, hsec, _, _, _, _, _⟩ := add_identifier_ok_shape hadd
      cases h
      exact ⟨rfl, hsec, hids⟩

theorem resolve_or_create_error_shape {st : DBState} {v : String}
    {t : IdentifierType} {n : String} {d a c : Option String} {today : Int}
    {e : Err} {st2 : DBState}
    (hmiss : resolve st v t today = none) (hn : n ≠ "")
    (h : resolve_or_create st v t n d a c today = .error (e, st2)) :
    st2.securities = st.securities ++
      [⟨st.next_security_id, n, d, a, c⟩] ∧
    st2.security_identifiers = st.security_identifiers ∧
    e.isTransactionError = false := by
  unfold resolve_or_create at h
  rw [resolve_call_eq, hmiss] at h
  simp only [SecurityRepository.create] at h
  split at h
  · next hcond => exact absurd hcond hn
  · split at h
    · next e1 hadd =>
        cases h
        obtain ⟨hst, htx, _⟩ := add_identifier_error_shape hadd
        subst hst
        exact ⟨rfl, rfl, htx⟩
    · cases h

theorem mem_activePriceRows {st : DBState} {x : PriceRow × SourceRow} :
    x ∈ activePriceRows st ↔
      x.1 ∈ st.price_data ∧ sourceFor st x.1.source_id = some x.2 ∧
        x.2.is_active = true := by
  unfold activePriceRows
  rw [List.mem_filterMap]
  constructor
  · rintro ⟨p, hp, hf⟩
    cases hsf : sourceFor st p.source_id with
    | none =>
        rw [hsf] at hf
        cases hf
    | some ds =>
        rw [hsf] at hf
        by_cases ha : ds.is_active = true
        · simp only [ha, if_true] at hf
          injection hf with hf
          subst hf
          exact ⟨hp, hsf, ha⟩
        · simp [ha] at hf
  · rintro ⟨hmem, hsf, ha⟩
    refine ⟨x.1, hmem, ?_⟩
    rw [hsf]
    simp [ha]

theorem price_id_inj {st : DBState}
    (hids : (st.price_data.map PriceRow.id).Nodup) {p q : PriceRow}
    (hp : p ∈ st.price_data) (hq : q ∈ st.price_data)
    (h : p.id = q.id) : p = q :=
  List.inj_on_of_nodup_map hids hp hq h

theorem mem_best_prices_rows {st : DBState} {b : PriceRow × SourceRow} :
    b ∈ best_prices_rows st ↔
      b ∈ activePriceRows st ∧
        bestPriceId st b.1.security_id b.1.price_date = some b.1.id := by
  unfold best_prices_rows
  rw [List.mem_filter]
  simp only [decide_eq_true_eq]

theorem bestPriceId_eq_some {st : DBState} {sec : Nat} {d : Int}
    {i : Nat} :
    bestPriceId st sec d = some i ↔
      ∃ ch, selectMinPriority ((activePriceRows st).filter fun x =>
        x.1.security_id = sec && x.1.price_date = d) = some ch ∧
        ch.1.id = i := by
  unfold bestPriceId
  cases h : selectMinPriority ((activePriceRows st).filter fun x =>
      x.1.security_id = sec && x.1.price_date = d) with
  | none => simp [h]
  | some ch => simp [h]

/-- A store holding one security that owns an expired ISIN association
with NULL `valid_from` (valid on `(-inf, 100)`). -/
def stDupNull : DBState :=
  { securities := [⟨1, "A Corp", none, none, none⟩],
    security_identifiers :=
      [⟨1, 1, .ISIN, "US0378331005", none, some 100, false⟩],
    data_sources := [], price_data := [], factor_data := [],
    next_security_id := 2, next_identifier_id := 2 }

/-- The state `resolve_or_create` leaves behind when, over `stDupNull`
at date 200, the duplicate check inside `add_identifier` fires after the
security insert already committed. -/
def stDupNullAfter : DBState :=
  { stDupNull with
    securities := stDupNull.securities ++ [⟨2, "New Corp", none, none,
      none⟩],
    next_security_id := 3 }

/-- A security holding the Japanese code 7203 with an unbounded validity
window. -/
def stJP : DBState :=
  { securities := [⟨1, "Toyota Motor Corp", none, none, none⟩],
    security_identifiers :=
      [⟨1, 1, .JP_CODE, "7203", none, none, true⟩],
    data_sources := [], price_data := [], factor_data := [],
    next_security_id := 2, next_identifier_id := 2 }

/-- C3: `detect_identifier_type` applies the five structural patterns in
the fixed precedence order FIGI, ISIN, CUSIP, SEDOL, JP_CODE and returns
the first matching type; a string matching exactly one pattern yields
that type; the empty string and every string matching no pattern (such
as the ticker "AAPL") yield none. -/
theorem C3_detect_ordered_first_match (v : String) :
    (v ≠ "" → detect_identifier_type v =
      DETECTION_ORDER.find? (fun t => patternMatches t v)) ∧
    (∀ t, patternMatches t v = true →
      (∀ u, u ≠ t → patternMatches u v = false) →
      detect_identifier_type v = some t) ∧
    detect_identifier_type "" = none ∧
    ((∀ t, patternMatches t v = false) → detect_identifier_type v = none) ∧
    detect_identifier_type "AAPL" = none := by
  have hfind : v ≠ "" → detect_identifier_type v =
      DETECTION_ORDER.find? (fun t => patternMatches t v) := by
    intro hv
    rw [detect_identifier_type, if_neg hv]
    exact detectLoop_eq_findFirst v _
  refine ⟨hfind, ?_, by decide, ?_, by decide⟩
  · intro t hpm huniq
    by_cases hv : v = ""
    · subst hv
      exfalso
      revert hpm
      cases t <;> decide
    · rw [hfind hv]
      cases t with
      | FIGI => simp [DETECTION_ORDER, List.find?, hpm]
      | ISIN =>
          have f1 := huniq .FIGI (by decide)
          simp [DETECTION_ORDER, List.find?, f1, hpm]
      | CUSIP =>
          have f1 := huniq .FIGI (by decide)
          have f2 := huniq .ISIN (by decide)
          simp [DETECTION_ORDER, List.find?, f1, f2, hpm]
      | SEDOL =>
          have f1 := huniq .FIGI (by decide)
          have f2 := huniq .ISIN (by decide)
          have f3 := huniq .CUSIP (by decide)
          simp [DETECTION_ORDER, List.find?, f1, f2, f3, hpm]
      | JP_CODE =>
          have f1 := huniq .FIGI (by decide)
          have f2 := huniq .ISIN (by decide)
          have f3 := huniq .CUSIP (by decide)
          have f4 := huniq .SEDOL (by decide)
          simp [DETECTION_ORDER, List.find?, f1, f2, f3, f4, hpm]
      | TICKER_BBG =>
          exfalso
          revert hpm
          simp [patternMatches, IDENTIFIER_PATTERNS]
      | TICKER_YAHOO =>
          exfalso
          revert hpm
          simp [patternMatches, IDENTIFIER_PATTERNS]
  · intro hall
    by_cases hv : v = ""
    · subst hv
      decide
    · rw [hfind hv]
      simp [DETECTION_ORDER, List.find?, hall .FIGI, hall .ISIN,
        hall .CUSIP, hall .SEDOL, hall .JP_CODE]

/-- Witness for C3: a well-formed ISIN matches exactly the ISIN pattern
and is detected as ISIN. -/
theorem C3_detect_ordered_first_match_witness :
    detect_identifier_type "US0378331005" = some IdentifierType.ISIN :=
  (C3_detect_ordered_first_match "US0378331005").2.1 .ISIN (by decide)
    (by decide)

/-- C9: the detector only ever returns one of the five structurally
patterned types (an element of DETECTION_ORDER) or none — never a
ticker type — so when every structural-type resolution misses,
`resolve_auto` reaches ticker associations exactly through the
fallback chain. -/
theorem C9_detect_never_ticker (v : String) :
    (detect_identifier_type v = none ∨
      ∃ t, detect_identifier_type v = some t ∧ t ∈ DETECTION_ORDER) ∧
    detect_identifier_type v ≠ some IdentifierType.TICKER_YAHOO ∧
    detect_identifier_type v ≠ some IdentifierType.TICKER_BBG ∧
    (∀ (st : DBState) (asOf : Int),
      (∀ t ∈ DETECTION_ORDER, resolve st v t asOf = none) →
      resolve_auto st v asOf = (tickerFallback st v asOf).1) := by
  refine ⟨?_, ?_, ?_, ?_⟩
  · cases hd : detect_identifier_type v with
    | none => exact Or.inl rfl
    | some t => exact Or.inr ⟨t, rfl, detect_mem_DETECTION_ORDER hd⟩
  · intro hd
    have := detect_mem_DETECTION_ORDER hd
    simp [DETECTION_ORDER] at this
  · intro hd
    have := detect_mem_DETECTION_ORDER hd
    simp [DETECTION_ORDER] at this
  · intro st asOf hmiss
    unfold resolve_auto resolve_auto_call
    cases hd : detect_identifier_type v with
    | none => rfl
    | some t =>
        have hres : resolve st v t asOf = none :=
          hmiss t (detect_mem_DETECTION_ORDER hd)
        simp [resolve_call_eq, hres]

/-- Witness for C9: over the empty store, "AAPL" is resolved by the
ticker fallback chain alone. -/
theorem C9_detect_never_ticker_witness :
    resolve_auto stEmpty "AAPL" 0 = (tickerFallback stEmpty "AAPL" 0).1 :=
  (C9_detect_never_ticker "AAPL").2.2.2 stEmpty 0 (by decide)

/-- C7: `resolve_auto` runs the detector first; a detection hit that
resolves is returned; on detection miss, or a detected type whose
resolution misses, the result is the ticker fallback chain
(TICKER_YAHOO then TICKER_BBG), and none when every attempt misses. -/
theorem C7_resolve_auto_fallback_chain (st : DBState) (v : String)
    (asOf : Int) :
    (∀ t sid, detect_identifier_type v = some t →
      resolve st v t asOf = some sid →
      resolve_auto st v asOf = some sid) ∧
    (detect_identifier_type v = none →
      resolve_auto st v asOf =
        match resolve st v .TICKER_YAHOO asOf with
        | some sid => some sid
        | none => resolve st v .TICKER_BBG asOf) ∧
    (∀ t, detect_identifier_type v = some t →
      resolve st v t asOf = none →
      resolve_auto st v asOf =
        match resolve st v .TICKER_YAHOO asOf with
        | some sid => some sid
        | none => resolve st v .TICKER_BBG asOf) ∧
    ((∀ u : IdentifierType, resolve st v u asOf = none) →
      resolve_auto st v asOf = none) := by
  have hchain : ∀ t, detect_identifier_type v = some t →
      resolve st v t asOf = none →
      resolve_auto st v asOf =
        match resolve st v .TICKER_YAHOO asOf with
        | some sid => some sid
        | none => resolve st v .TICKER_BBG asOf := by
    intro t hd hmiss
    unfold resolve_auto resolve_auto_call
    simp [hd, resolve_call_eq, hmiss, tickerFallback_eq]
  have hnone : detect_identifier_type v = none →
      resolve_auto st v asOf =
        match resolve st v .TICKER_YAHOO asOf with
        | some sid => some sid
        | none => resolve st v .TICKER_BBG asOf := by
    intro hd
    unfold resolve_auto resolve_auto_call
    rw [hd, tickerFallback_eq]
  refine ⟨?_, hnone, hchain, ?_⟩
  · intro t sid hd hhit
    unfold resolve_auto resolve_auto_call
    simp [hd, resolve_call_eq, hhit]
  · intro hall
    cases hd : detect_identifier_type v with
    | none => rw [hnone hd, hall .TICKER_YAHOO, hall .TICKER_BBG]
    | some t => rw [hchain t hd (hall t), hall .TICKER_YAHOO,
        hall .TICKER_BBG]

/-- Witness for C7 on the §8 auto-resolution scenario:
`resolve_auto "7203"` detects JP_CODE and resolves to the stored
security. -/
theorem C7_resolve_auto_fallback_chain_witness :
    resolve_auto stJP "7203" 100 = some 1 :=
  (C7_resolve_auto_fallback_chain stJP "7203" 100).1 .JP_CODE 1
    (by decide) (by decide)

/-- C10: `resolve`, `resolve_auto` and `resolve_or_raise` are read-only:
whatever they return (a hit, a miss, or the raising variant), the
database state — hence the contents of every table — after the call is
the state before it.  The detector consumes no state at all by type. -/
theorem C10_read_operations_frame (st : DBState) (v : String)
    (t : IdentifierType) (asOf : Int) :
    (resolve_call st v t asOf).2 = st ∧
    (resolve_auto_call st v asOf).2 = st ∧
    (resolve_or_raise_call st v t asOf).2 = st := by
  have htf : (tickerFallback st v asOf).2 = st := by
    rw [tickerFallback_eq]
  refine ⟨resolve_call_snd st v t asOf, ?_, ?_⟩
  · unfold resolve_auto_call
    cases hd : detect_identifier_type v with
    | none => exact htf
    | some u =>
        cases hr : resolve st v u asOf with
        | some sid => simp [hd, resolve_call_eq, hr]
        | none => simp [hd, resolve_call_eq, hr, htf]
  · unfold resolve_or_raise_call
    rw [resolve_call_eq]
    cases hr : resolve st v t asOf with
    | some sid => rfl
    | none => rfl

/-- C4: `resolve_or_create` is an idempotent get-or-insert: an existing
currently-valid association returns the existing id with no state
change, whatever the name/description/asset_class/currency arguments
are; after a creating call, `resolve` on the same `(value, type)` at the
same date returns the created id; and a second `resolve_or_create`,
whatever its name, returns the same id and creates nothing. -/
theorem C4_resolve_or_create_idempotent (st : DBState) (v : String)
    (t : IdentifierType) (today : Int) :
    (∀ sid, resolve st v t today = some sid →
      ∀ n d a c, resolve_or_create st v t n d a c today = .ok (sid, st)) ∧
    (∀ n d a c sid st2,
      resolve_or_create st v t n d a c today = .ok (sid, st2) →
      resolve st2 v t today = some sid) ∧
    (∀ n d a c sid st2 n2 d2 a2 c2,
      resolve_or_create st v t n d a c today = .ok (sid, st2) →
      resolve_or_create st2 v t n2 d2 a2 c2 today = .ok (sid, st2)) := by
  have hround : ∀ (n : String) (d a c : Option String) (sid : Nat)
      (st2 : DBState),
      resolve_or_create st v t n d a c today = .ok (sid, st2) →
      resolve st2 v t today = some sid := by
    intro n d a c sid st2 h
    cases hs : resolve st v t today with
    | some sid0 =>
        rw [resolve_or_create_hit hs n d a c] at h
        injection h with h
        injection h with h1 h2
        subst h1
        subst h2
        exact hs
    | none =>
        obtain ⟨hsid, _, hids⟩ := resolve_or_create_creates hs h
        subst hsid
        rw [resolve_eq_selectBest]
        have hcand : resolveCandidates st2 t v today =
            [⟨st.next_identifier_id, st.next_security_id, t, v, none, none,
              false⟩] := by
          rw [resolveCandidates, hids, List.filter_append]
          have h1 : st.security_identifiers.filter
              (resolveMatches t v today) = [] :=
            (resolve_none_iff st v t today).mp hs
          rw [h1]
          simp [resolveMatches, containsAsOf]
        rw [hcand]
        rfl
  refine ⟨?_, hround, ?_⟩
  · intro sid hs n d a c
    exact resolve_or_create_hit hs n d a c
  · intro n d a c sid st2 n2 d2 a2 c2 h
    exact resolve_or_create_hit (hround n d a c sid st2 h) n2 d2 a2 c2

/-- Witness for C4: the security behind JP_CODE 7203 already exists, so a
second creating call with a different name returns the stored id and
leaves the store untouched. -/
theorem C4_resolve_or_create_idempotent_witness :
    resolve_or_create stJP "7203" IdentifierType.JP_CODE "Other Name"
      none none none 100 = .ok (1, stJP) :=
  (C4_resolve_or_create_idempotent stJP "7203" .JP_CODE 100).1 1
    (by decide) "Other Name" none none none

/-- C1 (amended): on the creation path `resolve_or_create` performs the
security insert and the identifier insert as two separately committed
writes with no transaction around them: on success both new rows exist,
but when the identifier step fails the already-committed Security row
remains (it is not rolled back), no IdentifierAssociation row exists,
and the triggering error propagates unwrapped — it is never a
transaction-failure condition. -/
theorem C1_create_not_atomic (st : DBState) (v : String)
    (t : IdentifierType) (n : String) (d a c : Option String) (today : Int)
    (hmiss : resolve st v t today = none) (hn : n ≠ "") :
    (∀ sid st2,
      resolve_or_create st v t n d a c today = .ok (sid, st2) →
      st2.securities = st.securities ++
        [⟨st.next_security_id, n, d, a, c⟩] ∧
      st2.security_identifiers = st.security_identifiers ++
        [⟨st.next_identifier_id, st.next_security_id, t, v, none, none,
          false⟩]) ∧
    (∀ e st2,
      resolve_or_create st v t n d a c today = .error (e, st2) →
      st2.securities = st.securities ++
        [⟨st.next_security_id, n, d, a, c⟩] ∧
      st2.security_identifiers = st.security_identifiers ∧
      e.isTransactionError = false) := by
  constructor
  · intro sid st2 h
    obtain ⟨_, hsec, hids⟩ := resolve_or_create_creates hmiss h
    exact ⟨hsec, hids⟩
  · intro e st2 h
    exact resolve_or_create_error_shape hmiss hn h

/-- C1 counterexample: over `stDupNull` at date 200 the resolve step
misses (the only association expired at 100), the Security row for
"New Corp" is committed, then the duplicate check in `add_identifier`
fires; the call ends with the new Security row durable, no identifier
row, and a bare DuplicateSecurityError — not a transaction-failure
wrapper — contradicting "both rows exist or neither does". -/
theorem C1_counterexample :
    resolve_or_create stDupNull "US0378331005" .ISIN "New Corp" none none
      none 200 =
      .error (.duplicateSecurityError "ISIN" "US0378331005",
        stDupNullAfter) ∧
    stDupNullAfter.securities =
      stDupNull.securities ++ [⟨2, "New Corp", none, none, none⟩] ∧
    stDupNullAfter.security_identifiers =
      stDupNull.security_identifiers ∧
    Err.isTransactionError
      (.duplicateSecurityError "ISIN" "US0378331005") = false := by
  exact ⟨by decide, by decide, by decide, by decide⟩

/-- Witness for C1 (amended) on the `stDupNull` failure scenario. -/
theorem C1_create_not_atomic_witness :
    stDupNullAfter.securities =
      stDupNull.securities ++ [⟨2, "New Corp", none, none, none⟩] ∧
    stDupNullAfter.security_identifiers =
      stDupNull.security_identifiers ∧
    Err.isTransactionError
      (Err.duplicateSecurityError "ISIN" "US0378331005") = false :=
  (C1_create_not_atomic stDupNull "US0378331005" .ISIN "New Corp" none
    none none 200 (by decide) (by decide)).2
    (.duplicateSecurityError "ISIN" "US0378331005") stDupNullAfter
    (by decide)

/-- C5 (amended): `add_identifier` fails with a DuplicateSecurity
condition carrying (type, value) exactly when the first stored row
matching (identifier_type, identifier_value) whose `valid_from` is NULL
or equal to the supplied `valid_from` belongs to a different security —
not only on an exact (type, value, valid_from) triple; when that row
belongs to the same security, or no such row exists, it proceeds with
the insert (the storage UNIQUE constraint on the exact non-NULL triple
remaining the backstop); on success exactly one new IdentifierAssociation
row is appended and committed. -/
theorem C5_add_identifier_duplicate_guard (st : DBState) (sid : Nat)
    (t : IdentifierType) (v : String) (ip : Bool) (vf vt : Option Int) :
    (∀ r, (st.security_identifiers.filter
        (dupCheckMatches t v vf)).head? = some r →
      r.security_id ≠ sid →
      SecurityRepository.add_identifier st sid t v ip vf vt =
        .error (.duplicateSecurityError t.code v, st)) ∧
    (∀ e st2,
      SecurityRepository.add_identifier st sid t v ip vf vt =
        .error (e, st2) →
      e = .duplicateSecurityError t.code v →
      ∃ r, (st.security_identifiers.filter
        (dupCheckMatches t v vf)).head? = some r ∧ r.security_id ≠ sid) ∧
    (∀ r, (st.security_identifiers.filter
        (dupCheckMatches t v vf)).head? = some r →
      r.security_id = sid → uniqueConflict st t v vf = false →
      ∃ st2, SecurityRepository.add_identifier st sid t v ip vf vt =
        .ok st2) ∧
    ((st.security_identifiers.filter
        (dupCheckMatches t v vf)).head? = none →
      uniqueConflict st t v vf = false →
      ∃ st2, SecurityRepository.add_identifier st sid t v ip vf vt =
        .ok st2) ∧
    (∀ st2, SecurityRepository.add_identifier st sid t v ip vf vt =
        .ok st2 →
      st2.security_identifiers = st.security_identifiers ++
        [⟨st.next_identifier_id, sid, t, v, vf, vt, ip⟩]) := by
  refine ⟨?_, ?_, ?_, ?_, ?_⟩
  · intro r hhead hne
    unfold SecurityRepository.add_identifier
    rw [hhead]
    simp [hne]
  · intro e st2 h hdup
    subst hdup
    unfold SecurityRepository.add_identifier at h
    split at h
    · next r hhead =>
        split at h
        · next hne => exact ⟨r, hhead, hne⟩
        · split at h
          · cases h
          · cases h
    · split at h
      · cases h
      · cases h
  · intro r hhead hsame hnoc
    unfold SecurityRepository.add_identifier
    rw [hhead]
    simp [hsame, hnoc]
  · intro hhead hnoc
    unfold SecurityRepository.add_identifier
    rw [hhead]
    simp [hnoc]
  · intro st2 h
    exact (add_identifier_ok_shape h).1

/-- C5 counterexample: the store holds one ISIN association for security
1 with NULL `valid_from`; registering the same ISIN for security 2 with
`valid_from = 100` raises DuplicateSecurity although no stored row has
`valid_from = 100`, i.e. no row with the same (type, value, valid_from)
triple exists. -/
theorem C5_counterexample :
    SecurityRepository.add_identifier stDupNull 2 .ISIN "US0378331005"
      false (some 100) none =
      .error (.duplicateSecurityError "ISIN" "US0378331005", stDupNull) ∧
    (stDupNull.security_identifiers.any fun r =>
      sqlEqOpt r.valid_from (some 100)) = false := by
  exact ⟨by decide, by decide⟩

/-- Witness for C5 (amended): the NULL-`valid_from` row for security 1 is
the first duplicate-check match, so registering for security 2 fails. -/
theorem C5_add_identifier_duplicate_guard_witness :
    SecurityRepository.add_identifier stDupNull 2 IdentifierType.ISIN
      "US0378331005" false (some 50) none =
      .error (.duplicateSecurityError "ISIN" "US0378331005", stDupNull) :=
  (C5_add_identifier_duplicate_guard stDupNull 2 .ISIN "US0378331005"
    false (some 50) none).1
    ⟨1, 1, .ISIN, "US0378331005", none, some 100, false⟩
    (by decide) (by decide)

/-- C8: every `best_prices` view row comes from an active source and
carries the minimum priority among all active-source fact rows for its
`(security, date)`; an active-source fact row for a key guarantees a
view row for that key; under distinct fact-row ids the selected row per
key is unique; reading the view leaves the state untouched; and
deactivating a source (the spec scenario) alters no stored row of any
other table. -/
theorem C8_best_prices_min_priority (st : DBState)
    (hids : (st.price_data.map PriceRow.id).Nodup) :
    (∀ b ∈ best_prices_rows st,
      b.2.is_active = true ∧
      sourceFor st b.1.source_id = some b.2 ∧
      b.1 ∈ st.price_data ∧
      ∀ x ∈ activePriceRows st, x.1.security_id = b.1.security_id →
        x.1.price_date = b.1.price_date →
        b.2.priority ≤ x.2.priority) ∧
    (∀ sec d,
      (∃ x ∈ activePriceRows st, x.1.security_id = sec ∧
        x.1.price_date = d) →
      ∃ b ∈ best_prices_rows st, b.1.security_id = sec ∧
        b.1.price_date = d) ∧
    (∀ b b', b ∈ best_prices_rows st → b' ∈ best_prices_rows st →
      b.1.security_id = b'.1.security_id →
      b.1.price_date = b'.1.price_date → b = b') ∧
    (best_prices_call st).2 = st ∧
    (∀ sid, (deactivateSource st sid).price_data = st.price_data ∧
      (deactivateSource st sid).factor_data = st.factor_data ∧
      (deactivateSource st sid).securities = st.securities ∧
      (deactivateSource st sid).security_identifiers =
        st.security_identifiers) := by
  have hbest : ∀ b ∈ best_prices_rows st, ∃ ch,
      selectMinPriority ((activePriceRows st).filter fun x =>
        x.1.security_id = b.1.security_id &&
          x.1.price_date = b.1.price_date) = some ch ∧ b = ch := by
    intro b hb
    obtain ⟨hact, hid⟩ := mem_best_prices_rows.mp hb
    obtain ⟨ch, hch, hcid⟩ := bestPriceId_eq_some.mp hid
    obtain ⟨hchact, _⟩ := List.mem_filter.mp (selectMinPriority_mem hch)
    obtain ⟨hchp, hchsf, _⟩ := mem_activePriceRows.mp hchact
    obtain ⟨hbp, hbsf, _⟩ := mem_activePriceRows.mp hact
    have h1 : b.1 = ch.1 := price_id_inj hids hbp hchp hcid.symm
    have h2 : b.2 = ch.2 := by
      rw [h1] at hbsf
      rw [hbsf] at hchsf
      injection hchsf
    exact ⟨ch, hch, Prod.ext h1 h2⟩
  refine ⟨?_, ?_, ?_, rfl, fun sid => ⟨rfl, rfl, rfl, rfl⟩⟩
  · intro b hb
    obtain ⟨hact, _⟩ := mem_best_prices_rows.mp hb
    obtain ⟨hbp, hbsf, hba⟩ := mem_activePriceRows.mp hact
    refine ⟨hba, hbsf, hbp, ?_⟩
    obtain ⟨ch, hch, hbch⟩ := hbest b hb
    intro x hx hxsec hxd
    have hxgr : x ∈ (activePriceRows st).filter fun y =>
        y.1.security_id = b.1.security_id &&
          y.1.price_date = b.1.price_date :=
      List.mem_filter.mpr ⟨hx, by simp [hxsec, hxd]⟩
    have hmin := selectMinPriority_minimal hch x hxgr
    rw [hbch]
    simp at hmin
    omega
  · intro sec d hx
    obtain ⟨x, hx, hxsec, hxd⟩ := hx
    have hxgr : x ∈ (activePriceRows st).filter fun y =>
        y.1.security_id = sec && y.1.price_date = d :=
      List.mem_filter.mpr ⟨hx, by simp [hxsec, hxd]⟩
    cases hch : selectMinPriority ((activePriceRows st).filter fun y =>
        y.1.security_id = sec && y.1.price_date = d) with
    | none =>
        rw [selectMinPriority_eq_none.mp hch] at hxgr
        cases hxgr
    | some ch =>
        obtain ⟨hchact, hchcond⟩ :=
          List.mem_filter.mp (selectMinPriority_mem hch)
        simp only [Bool.and_eq_true, decide_eq_true_eq] at hchcond
        refine ⟨ch, ?_, hchcond.1, hchcond.2⟩
        apply mem_best_prices_rows.mpr
        refine ⟨hchact, ?_⟩
        rw [hchcond.1, hchcond.2]
        exact bestPriceId_eq_some.mpr ⟨ch, hch, rfl⟩
  · intro b b' hb hb' hsec hd
    obtain ⟨ch, hch, hbch⟩ := hbest b hb
    obtain ⟨ch', hch', hbch'⟩ := hbest b' hb'
    rw [← hsec, ← hd] at hch'
    rw [hch] at hch'
    injection hch' with hch'
    rw [hbch, hbch', hch']

/-- The §8 overlay scenario: two active sources at priorities 10 and 50
both report a close price for security 1 on date 5. -/
def stOverlay : DBState :=
  { securities := [⟨1, "A Corp", none, none, none⟩],
    security_identifiers := [],
    data_sources := [⟨1, "YFINANCE", 10, true⟩,
      ⟨2, "EXCEL_IMPORT", 50, true⟩],
    price_data :=
      [⟨1, 1, 1, 5, none, none, none, 101, none, none⟩,
       ⟨2, 1, 2, 5, none, none, none, 102, none, none⟩],
    factor_data := [], next_security_id := 2, next_identifier_id := 1 }

/-- Witness for C8 on the §8 overlay scenario: the view has a row for
(security 1, date 5). -/
theorem C8_best_prices_min_priority_witness :
    ∃ b ∈ best_prices_rows stOverlay, b.1.security_id = 1 ∧
      b.1.price_date = 5 :=
  (C8_best_prices_min_priority stOverlay (by decide)).2.1 1 5
    ⟨(⟨1, 1, 1, 5, none, none, none, 101, none, none⟩,
      ⟨1, "YFINANCE", 10, true⟩), by decide, rfl, rfl⟩

/-- C6 (amended): when `resolve` misses and the supplied name is empty,
`resolve_or_create` fails with Python's built-in `ValueError` — which is
not the `ValidationError` class of `exceptions.py` — and the failure
happens before any write: the state carried out is the input state. -/
theorem C6_empty_name_raises_value_error (st : DBState) (v : String)
    (t : IdentifierType) (d a c : Option String) (today : Int)
    (hmiss : resolve st v t today = none) :
    resolve_or_create st v t "" d a c today =
      .error (.valueError
        ("security_name is required when creating new security for " ++
          t.code ++ "=" ++ v), st) ∧
    Err.isValidationError (.valueError
      ("security_name is required when creating new security for " ++
        t.code ++ "=" ++ v)) = false := by
  constructor
  · unfold resolve_or_create
    rw [resolve_call_eq, hmiss]
    simp
  · rfl

/-- C6 counterexample: on the empty store with an empty name, the raised
condition is the built-in ValueError, not an instance of the
`ValidationError` class cited by the claim. -/
theorem C6_counterexample :
    resolve_or_create stEmpty "US0378331005" .ISIN "" none none none 0 =
      .error (.valueError ("security_name is required when creating new " ++
        "security for ISIN=US0378331005"), stEmpty) ∧
    Err.isValidationError (.valueError
      ("security_name is required when creating new " ++
        "security for ISIN=US0378331005")) = false := by
  exact ⟨by decide, by decide⟩

/-- Witness for C6 (amended) on the empty store. -/
theorem C6_empty_name_raises_value_error_witness :
    resolve_or_create stEmpty "7203" IdentifierType.JP_CODE "" none none
      none 0 =
      .error (.valueError
        ("security_name is required when creating new security for " ++
          IdentifierType.JP_CODE.code ++ "=" ++ "7203"), stEmpty) :=
  (C6_empty_name_raises_value_error stEmpty "7203" .JP_CODE none none
    none 0 (by decide)).1

/-- Witness for C2 on the §8 temporal scenario: resolving the expired
ticker inside its window yields the row for security 1 with the
maximality property. -/
theorem C2_resolve_point_in_time_witness :
    ∃ r, r ∈ stTemporal.security_identifiers ∧
      r.identifier_type = IdentifierType.TICKER_YAHOO ∧
      r.identifier_value = "OLD.T" ∧ containsAsOf r 900 = true ∧
      r.security_id = 1 ∧
      ∀ rr, rr ∈ stTemporal.security_identifiers →
        rr.identifier_type = IdentifierType.TICKER_YAHOO →
        rr.identifier_value = "OLD.T" → containsAsOf rr 900 = true →
        vfLT r.valid_from rr.valid_from = false :=
  (C2_resolve_point_in_time stTemporal "OLD.T" .TICKER_YAHOO 900).1 1
    (by decide)

end DBU
